import Mathlib

/-!
Verification of the CSV import core of `src/lib/database-utils.ts`
(identifier sanitization, column type inference, cell conversion and the
transactional import `createTableFromCSV`).

Strings are modelled as lists of Unicode characters (`List Char`).  The
code's string operations (`replace` with the regex `[^a-zA-Z0-9_]`,
`toLowerCase`, `trim`, `includes`, `Number(...)`) are modelled character by
character below, next to the definitions that use them.
-/

namespace CSVImport

/-- A JavaScript string, modelled as its sequence of characters. -/
abbrev Str := List Char

/-- Character list of a Lean string literal (used to write concrete inputs). -/
def str (s : String) : Str := s.data

/-- Test for the character class `[a-zA-Z0-9_]` of the sanitizer's regex. -/
def isWordChar (c : Char) : Bool :=
  (65 ≤ c.toNat && c.toNat ≤ 90) || (97 ≤ c.toNat && c.toNat ≤ 122) ||
    (48 ≤ c.toNat && c.toNat ≤ 57) || c == '_'

/-- Test for the character class `[a-z]`. -/
def isAsciiLower (c : Char) : Bool := 97 ≤ c.toNat && c.toNat ≤ 122

/-- Test for the character class `[A-Z]`. -/
def isAsciiUpper (c : Char) : Bool := 65 ≤ c.toNat && c.toNat ≤ 90

/-- Test for the character class `[0-9]` (JavaScript regex `\d`). -/
def isDigitChar (c : Char) : Bool := 48 ≤ c.toNat && c.toNat ≤ 57

/-- One character of JavaScript `toLowerCase`.  Only the ASCII mapping
`A-Z → a-z` is modelled: in this code base `toLowerCase` is applied either
to strings containing only `[a-zA-Z0-9_]` (in the sanitizer) or right
before a membership test against short ASCII token lists, and no non-ASCII
simple lowercase mapping produces any of those ASCII tokens, so the ASCII
mapping is extensionally faithful for every use in the source. -/
def lowerChar (c : Char) : Char :=
  if isAsciiUpper c then Char.ofNat (c.toNat + 32) else c

/-- One character of `identifier.replace(/[^a-zA-Z0-9_]/g, "_")`. -/
def replaceNonWord (c : Char) : Char := if isWordChar c then c else '_'

/-- Test for the regex `/^[a-z_]/` applied after lowercasing. -/
def startsLowerUnderscore : Str → Bool
  | [] => false
  | c :: _ => isAsciiLower c || c == '_'

/-- Model of `sanitizeSqlIdentifier` (database-utils.ts lines 20-27):
replace every character outside `[a-zA-Z0-9_]` with `_`, lowercase, and
prepend `_` when the result does not start with `[a-z_]`. -/
def sanitizeSqlIdentifier (identifier : Str) : Str :=
  let sanitized := (identifier.map replaceNonWord).map lowerChar
  if startsLowerUnderscore sanitized then sanitized else '_' :: sanitized

/-- Test for the character class `[a-z0-9_]`. -/
def isSafeChar (c : Char) : Bool := isAsciiLower c || isDigitChar c || c == '_'

/-- Test for the full regex `^[a-z_][a-z0-9_]*$` of the spec's invariant. -/
def matchesIdentPattern : Str → Bool
  | [] => false
  | c :: rest => (isAsciiLower c || c == '_') && rest.all isSafeChar

lemma toNat_ofNat_of_le (n : ℕ) (h : n ≤ 1000) : (Char.ofNat n).toNat = n := by
  have hv : Nat.isValidChar n := Or.inl (by omega)
  simp only [Char.ofNat, dif_pos hv]
  simp only [Char.ofNatAux, Char.toNat, UInt32.toNat, BitVec.toNat_ofNatLt]

lemma isSafeChar_lowerChar_replaceNonWord (c : Char) :
    isSafeChar (lowerChar (replaceNonWord c)) = true := by
  unfold replaceNonWord
  by_cases hw : isWordChar c = true
  · rw [if_pos hw]
    unfold lowerChar
    by_cases hu : isAsciiUpper c = true
    · rw [if_pos hu]
      simp only [isAsciiUpper, Bool.and_eq_true, decide_eq_true_eq] at hu
      have htn : (Char.ofNat (c.toNat + 32)).toNat = c.toNat + 32 :=
        toNat_ofNat_of_le _ (by omega)
      simp only [isSafeChar, isAsciiLower, Bool.or_eq_true, Bool.and_eq_true,
        decide_eq_true_eq, htn]
      left; omega
    · rw [if_neg hu]
      simp only [isWordChar, Bool.or_eq_true, Bool.and_eq_true, decide_eq_true_eq,
        beq_iff_eq] at hw
      simp only [isAsciiUpper, Bool.and_eq_true, decide_eq_true_eq] at hu
      simp only [isSafeChar, isAsciiLower, isDigitChar, Bool.or_eq_true,
        Bool.and_eq_true, decide_eq_true_eq, beq_iff_eq]
      rcases hw with ((h1 | h1) | h1) | h1
      · exact absurd h1 hu
      · exact Or.inl (Or.inl h1)
      · exact Or.inl (Or.inr h1)
      · exact Or.inr h1
  · rw [if_neg hw]
    decide

lemma isSafeChar_fixed_replaceNonWord (c : Char) (h : isSafeChar c = true) :
    replaceNonWord c = c := by
  simp only [isSafeChar, Bool.or_eq_true] at h
  have hw : isWordChar c = true := by
    simp only [isWordChar, Bool.or_eq_true]
    rcases h with (h | h) | h
    · exact Or.inl (Or.inl (Or.inr (by simpa [isAsciiLower] using h)))
    · exact Or.inl (Or.inr (by simpa [isDigitChar] using h))
    · exact Or.inr h
  simp [replaceNonWord, hw]

lemma isSafeChar_fixed_lowerChar (c : Char) (h : isSafeChar c = true) :
    lowerChar c = c := by
  simp only [isSafeChar, isAsciiLower, isDigitChar, Bool.or_eq_true,
    Bool.and_eq_true, decide_eq_true_eq, beq_iff_eq] at h
  have hu : ¬ isAsciiUpper c = true := by
    simp only [isAsciiUpper, Bool.and_eq_true, decide_eq_true_eq]
    rcases h with (h | h) | h
    · omega
    · omega
    · subst h; decide
  simp [lowerChar, hu]

lemma map_id_of_all_safe (f : Char → Char) (hf : ∀ c, isSafeChar c = true → f c = c) :
    ∀ l : Str, l.all isSafeChar = true → l.map f = l := by
  intro l hl
  induction l with
  | nil => rfl
  | cons c rest ih =>
      simp only [List.all_cons, Bool.and_eq_true] at hl
      simp [hf c hl.1, ih hl.2]

lemma sanitize_all_safe (s : Str) :
    (sanitizeSqlIdentifier s).all isSafeChar = true := by
  unfold sanitizeSqlIdentifier
  have hall : ((s.map replaceNonWord).map lowerChar).all isSafeChar = true := by
    simp only [List.all_eq_true]
    intro c hc
    simp only [List.mem_map] at hc
    obtain ⟨b, ⟨a, _, rfl⟩, rfl⟩ := hc
    exact isSafeChar_lowerChar_replaceNonWord a
  by_cases hs : startsLowerUnderscore ((s.map replaceNonWord).map lowerChar) = true
  · simp only [hs, if_true]; exact hall
  · simp only [hs, if_false, Bool.false_eq_true, reduceIte]
    simp only [List.all_cons, Bool.and_eq_true]
    exact ⟨by decide, hall⟩

lemma sanitize_starts_ok (s : Str) :
    startsLowerUnderscore (sanitizeSqlIdentifier s) = true := by
  unfold sanitizeSqlIdentifier
  by_cases hs : startsLowerUnderscore ((s.map replaceNonWord).map lowerChar) = true
  · simp only [hs, if_true]
  · simp only [hs, if_false, Bool.false_eq_true, reduceIte]
    rfl

/-- C6: for every string, the sanitized identifier is defined and matches
the pattern `^[a-z_][a-z0-9_]*$`: it is nonempty, its first character is a
lowercase letter or underscore, and every character is a lowercase letter,
digit, or underscore. -/
theorem sanitize_matches_identifier_pattern (s : Str) :
    matchesIdentPattern (sanitizeSqlIdentifier s) = true := by
  have hall := sanitize_all_safe s
  have hst := sanitize_starts_ok s
  cases h : sanitizeSqlIdentifier s with
  | nil => rw [h] at hst; exact absurd hst (by decide)
  | cons c rest =>
      rw [h] at hall hst
      simp only [List.all_cons, Bool.and_eq_true] at hall
      simp only [startsLowerUnderscore] at hst
      simp only [matchesIdentPattern, Bool.and_eq_true]
      exact ⟨hst, hall.2⟩

/-- C7: sanitization is idempotent: sanitizing an already sanitized
identifier returns it unchanged. -/
theorem sanitize_idempotent (s : Str) :
    sanitizeSqlIdentifier (sanitizeSqlIdentifier s) = sanitizeSqlIdentifier s := by
  have hall := sanitize_all_safe s
  have hst := sanitize_starts_ok s
  generalize hu : sanitizeSqlIdentifier s = u at hall hst
  unfold sanitizeSqlIdentifier
  rw [map_id_of_all_safe replaceNonWord isSafeChar_fixed_replaceNonWord _ hall]
  rw [map_id_of_all_safe lowerChar isSafeChar_fixed_lowerChar _ hall]
  rw [if_pos hst]

/-- The column types of the source
(`type PostgresColumnType = "TEXT" | "INTEGER" | "REAL" | "DATE" | "BOOLEAN"`). -/
inductive PGType
  | TEXT | INTEGER | REAL | DATE | BOOLEAN
deriving DecidableEq, Repr

/-- White space and line terminator characters for JavaScript's
`String.prototype.trim` and the `Number` conversion (tab, line feed,
vertical tab, form feed, carriage return, space, no-break space, the
Unicode space separators, line and paragraph separators, and the BOM). -/
def isJsWhitespace (c : Char) : Bool :=
  c.toNat == 9 || c.toNat == 10 || c.toNat == 11 || c.toNat == 12 ||
    c.toNat == 13 || c.toNat == 32 || c.toNat == 160 || c.toNat == 5760 ||
    (8192 ≤ c.toNat && c.toNat ≤ 8202) || c.toNat == 8232 ||
    c.toNat == 8233 || c.toNat == 8239 || c.toNat == 8287 ||
    c.toNat == 12288 || c.toNat == 65279

/-- Model of `String.prototype.trim`: strip leading and trailing white space. -/
def jsTrim (s : Str) : Str :=
  ((s.dropWhile isJsWhitespace).reverse.dropWhile isJsWhitespace).reverse

/-- A JavaScript number that the string conversion can produce, NaN excluded
(NaN is represented as `none` by `jsStrToNumber`).  Finite values are kept
as exact rationals: no claim under verification depends on float rounding,
only on NaN-ness and on the exact value `0`. -/
inductive JSNum
  | fin : ℚ → JSNum
  | posInf : JSNum
  | negInf : JSNum
deriving DecidableEq, Repr

/-- Numeric value of a decimal digit character. -/
def digitVal (c : Char) : ℕ := c.toNat - 48

/-- Value of a digit string in the given base with the given per-digit value. -/
def natOfDigits (base : ℕ) (valOf : Char → ℕ) (ds : Str) : ℕ :=
  ds.foldl (fun a c => a * base + valOf c) 0

/-- Test for the hexadecimal digit class `[0-9a-fA-F]`. -/
def isHexDigit (c : Char) : Bool :=
  isDigitChar c || (97 ≤ c.toNat && c.toNat ≤ 102) || (65 ≤ c.toNat && c.toNat ≤ 70)

/-- Value of a hexadecimal digit character. -/
def hexVal (c : Char) : ℕ :=
  if isDigitChar c then c.toNat - 48
  else if 97 ≤ c.toNat then c.toNat - 87
  else c.toNat - 55

/-- Test for the octal digit class `[0-7]`. -/
def isOctalDigit (c : Char) : Bool := 48 ≤ c.toNat && c.toNat ≤ 55

/-- Test for the binary digit class `[01]`. -/
def isBinaryDigit (c : Char) : Bool := c == '0' || c == '1'

/-- ExponentPart of a decimal literal: empty, or `e`/`E`, an optional sign
and a nonempty digit sequence consuming the rest of the string. -/
def parseExponent : Str → Option ℤ
  | [] => some 0
  | c :: rest =>
      if c == 'e' || c == 'E' then
        let signedTail : ℤ × Str :=
          match rest with
          | '+' :: r => (1, r)
          | '-' :: r => (-1, r)
          | _ => (1, rest)
        let ds := signedTail.2.takeWhile isDigitChar
        let tail := signedTail.2.dropWhile isDigitChar
        if ds = [] ∨ tail ≠ [] then none
        else some (signedTail.1 * (natOfDigits 10 digitVal ds : ℤ))
      else none

/-- Scale a rational by a signed power of ten. -/
def scalePow10 (q : ℚ) (e : ℤ) : ℚ :=
  if 0 ≤ e then q * (10 : ℚ) ^ e.toNat else q / (10 : ℚ) ^ (-e).toNat

/-- StrUnsignedDecimalLiteral without the `Infinity` alternative:
`DecimalDigits . DecimalDigits? ExponentPart?`, `. DecimalDigits
ExponentPart?` or `DecimalDigits ExponentPart?`, consuming the whole
string; yields the exact rational value. -/
def parseDecimal (u : Str) : Option ℚ :=
  let intDigits := u.takeWhile isDigitChar
  let rest := u.dropWhile isDigitChar
  match rest with
  | '.' :: rest2 =>
      let fracDigits := rest2.takeWhile isDigitChar
      let rest3 := rest2.dropWhile isDigitChar
      if intDigits = [] ∧ fracDigits = [] then none
      else
        match parseExponent rest3 with
        | none => none
        | some e =>
            some (scalePow10 (natOfDigits 10 digitVal (intDigits ++ fracDigits) : ℚ)
              (e - fracDigits.length))
  | _ =>
      if intDigits = [] then none
      else
        match parseExponent rest with
        | none => none
        | some e => some (scalePow10 (natOfDigits 10 digitVal intDigits : ℚ) e)

/-- StrDecimalLiteral: optional sign, then `Infinity` or an unsigned
decimal literal. -/
def parseSignedDecimal (t : Str) : Option JSNum :=
  let signBody : Bool × Str :=
    match t with
    | '+' :: r => (true, r)
    | '-' :: r => (false, r)
    | _ => (true, t)
  if signBody.2 = str r"Infinity" then
    some (if signBody.1 then JSNum.posInf else JSNum.negInf)
  else
    match parseDecimal signBody.2 with
    | none => none
    | some q => some (.fin (if signBody.1 then q else -q))

/-- Model of the JavaScript `Number(string)` conversion, restricted to what
distinguishes its results here: `none` when the conversion yields NaN,
`some` of the exact value otherwise.  A string that is empty after
trimming converts to `0`; otherwise the trimmed string must be a signed
decimal literal, `Infinity`, or a `0x`/`0o`/`0b` integer literal.  (Float
rounding of large literals is not modelled; no claim depends on it.) -/
def jsStrToNumber (s : Str) : Option JSNum :=
  let t := jsTrim s
  match t with
  | [] => some (.fin 0)
  | '0' :: c :: rest =>
      if c == 'x' || c == 'X' then
        if rest ≠ [] ∧ rest.all isHexDigit then
          some (.fin (natOfDigits 16 hexVal rest : ℚ))
        else none
      else if c == 'o' || c == 'O' then
        if rest ≠ [] ∧ rest.all isOctalDigit then
          some (.fin (natOfDigits 8 digitVal rest : ℚ))
        else none
      else if c == 'b' || c == 'B' then
        if rest ≠ [] ∧ rest.all isBinaryDigit then
          some (.fin (natOfDigits 2 digitVal rest : ℚ))
        else none
      else parseSignedDecimal t
  | _ => parseSignedDecimal t

/-- Lowercased trimmed form `value.trim().toLowerCase()` used by the
boolean token tests. -/
def trimLower (s : Str) : Str := (jsTrim s).map lowerChar

/-- Boolean-looking tokens of `inferDataType` (database-utils.ts
lines 175-186). -/
def boolTokens : List Str :=
  [str r"true", str r"false", str r"yes", str r"no", str r"1", str r"0",
    str r"t", str r"f", str r"y", str r"n"]

/-- Test for the regex `/^\d{4}-\d{2}-\d{2}$/`. -/
def isDatePattern : Str → Bool
  | [a, b, c, d, e, f, g, h, i, j] =>
      isDigitChar a && isDigitChar b && isDigitChar c && isDigitChar d &&
        e == '-' && isDigitChar f && isDigitChar g && h == '-' &&
        isDigitChar i && isDigitChar j
  | _ => false

/-- Model of `inferDataType` (database-utils.ts lines 169-204): empty value
is TEXT; a boolean-looking token is BOOLEAN; a value that converts to a
number and is not blank is REAL when it contains a `.` and INTEGER
otherwise; a `YYYY-MM-DD` shaped value is DATE; anything else is TEXT. -/
def inferDataType (value : Str) : PGType :=
  if value = [] then .TEXT
  else if boolTokens.contains (trimLower value) then .BOOLEAN
  else if (jsStrToNumber value).isSome ∧ jsTrim value ≠ [] then
    if value.contains '.' then .REAL else .INTEGER
  else if isDatePattern value then .DATE
  else .TEXT

/-- Running per-type tallies of the sampling loop (`typeCounts`). -/
structure TypeCounts where
  text : ℕ
  boolean : ℕ
  real : ℕ
  integer : ℕ
  date : ℕ
deriving DecidableEq, Repr

/-- The empty tally (`{}` in the source). -/
def TypeCounts.zero : TypeCounts := ⟨0, 0, 0, 0, 0⟩

/-- One step of `typeCounts[type] = (typeCounts[type] ?? 0) + 1`. -/
def bump (c : TypeCounts) : PGType → TypeCounts
  | .TEXT => { c with text := c.text + 1 }
  | .BOOLEAN => { c with boolean := c.boolean + 1 }
  | .REAL => { c with real := c.real + 1 }
  | .INTEGER => { c with integer := c.integer + 1 }
  | .DATE => { c with date := c.date + 1 }

/-- The sampling loop and post-scan resolution of `determineColumnType`
(database-utils.ts lines 141-166).  The source's early-exit test is
`typeCounts.TEXT && typeCounts.TEXT > sampleSize * 0.1` in float
arithmetic; for an integer count and 1 ≤ sampleSize ≤ 100 the float
product `sampleSize * 0.1` lies in `[sampleSize/10, sampleSize/10 + 1)`
and rounds down to `sampleSize/10` exactly when that is an integer, so
comparing an integer against it agrees with the exact test
`10 * count > sampleSize`, which is used here.  The truthiness guards
(`typeCounts.TEXT &&`, `typeCounts.BOOLEAN &&`, ...) are kept as `≠ 0`
conjuncts. -/
def scanSample (sampleSize : ℕ) : List Str → TypeCounts → PGType
  | [], counts =>
      if counts.boolean ≠ 0 ∧ counts.boolean = sampleSize then .BOOLEAN
      else if counts.real ≠ 0 then .REAL
      else if counts.integer ≠ 0 then .INTEGER
      else if counts.date ≠ 0 then .DATE
      else .TEXT
  | v :: vs, counts =>
      if (bump counts (inferDataType v)).text ≠ 0 ∧
          10 * (bump counts (inferDataType v)).text > sampleSize then .TEXT
      else scanSample sampleSize vs (bump counts (inferDataType v))

/-- Model of `determineColumnType` (database-utils.ts lines 129-167):
discard empty values; with none left return TEXT; otherwise scan the
first `min(100, n)` non-empty values. -/
def determineColumnType (columnValues : List Str) : PGType :=
  let nonEmptyValues := columnValues.filter (fun v => v ≠ [])
  if nonEmptyValues = [] then .TEXT
  else
    scanSample (min 100 nonEmptyValues.length)
      (nonEmptyValues.take (min 100 nonEmptyValues.length)) TypeCounts.zero

/-- Number of values of a list that `inferDataType` classifies as `t`. -/
def countType (t : PGType) (l : List Str) : ℕ :=
  l.countP (fun v => decide (inferDataType v = t))

/-- The sample of a column: its first `min(100, n)` non-empty values. -/
def sampleOf (columnValues : List Str) : List Str :=
  (columnValues.filter (fun v => v ≠ [])).take
    (min 100 (columnValues.filter (fun v => v ≠ [])).length)

/-- The sample size of a column: `min(100, n)` for `n` non-empty values. -/
def sampleSizeOf (columnValues : List Str) : ℕ :=
  min 100 (columnValues.filter (fun v => v ≠ [])).length

lemma bump_counts_cons (c : TypeCounts) (v : Str) (vs : List Str) :
    (bump c (inferDataType v)).text + countType .TEXT vs
        = c.text + countType .TEXT (v :: vs)
    ∧ (bump c (inferDataType v)).boolean + countType .BOOLEAN vs
        = c.boolean + countType .BOOLEAN (v :: vs)
    ∧ (bump c (inferDataType v)).real + countType .REAL vs
        = c.real + countType .REAL (v :: vs)
    ∧ (bump c (inferDataType v)).integer + countType .INTEGER vs
        = c.integer + countType .INTEGER (v :: vs)
    ∧ (bump c (inferDataType v)).date + countType .DATE vs
        = c.date + countType .DATE (v :: vs) := by
  cases h : inferDataType v <;>
    simp [bump, countType, List.countP_cons, h] <;> omega

lemma scanSample_text_exit (n : ℕ) (rest : List Str) (c : TypeCounts)
    (h : 10 * (c.text + countType .TEXT rest) > n) (h0 : 10 * c.text ≤ n) :
    scanSample n rest c = .TEXT := by
  induction rest generalizing c with
  | nil =>
      exfalso
      simp only [countType, List.countP_nil] at h
      omega
  | cons v vs ih =>
      have hb := (bump_counts_cons c v vs).1
      by_cases hc : (bump c (inferDataType v)).text ≠ 0 ∧
          10 * (bump c (inferDataType v)).text > n
      · simp only [scanSample, if_pos hc]
      · simp only [scanSample, if_neg hc]
        have h2 : 10 * (bump c (inferDataType v)).text ≤ n := by
          by_cases hz : (bump c (inferDataType v)).text = 0
          · omega
          · rcases Nat.lt_or_ge n (10 * (bump c (inferDataType v)).text) with hlt | hge
            · exact absurd ⟨hz, hlt⟩ hc
            · exact hge
        exact ih _ (by omega) h2

lemma scanSample_complete (n : ℕ) (rest : List Str) (c : TypeCounts)
    (h : 10 * (c.text + countType .TEXT rest) ≤ n) :
    scanSample n rest c =
      if c.boolean + countType .BOOLEAN rest ≠ 0 ∧
          c.boolean + countType .BOOLEAN rest = n then .BOOLEAN
      else if c.real + countType .REAL rest ≠ 0 then .REAL
      else if c.integer + countType .INTEGER rest ≠ 0 then .INTEGER
      else if c.date + countType .DATE rest ≠ 0 then .DATE
      else .TEXT := by
  induction rest generalizing c with
  | nil =>
      simp [scanSample, countType, List.countP_nil]
  | cons v vs ih =>
      obtain ⟨h1, h2, h3, h4, h5⟩ := bump_counts_cons c v vs
      have htx : ¬((bump c (inferDataType v)).text ≠ 0 ∧
          10 * (bump c (inferDataType v)).text > n) := by
        have : (bump c (inferDataType v)).text ≤
            c.text + countType .TEXT (v :: vs) := by
          have := countType .TEXT vs; omega
        omega
      simp only [scanSample, if_neg htx]
      rw [ih _ (by omega)]
      rw [h2, h3, h4, h5]

/-- C3: the early-exit rule: whenever the TEXT tally over some prefix of
the sample exceeds 10 percent of the sample size, `determineColumnType`
returns TEXT, whatever the remaining sampled values are. -/
theorem determineColumnType_early_text_exit (vs : List Str) (k : ℕ)
    (h : 10 * countType .TEXT ((sampleOf vs).take k) > sampleSizeOf vs) :
    determineColumnType vs = .TEXT := by
  have hmono : countType .TEXT ((sampleOf vs).take k) ≤ countType .TEXT (sampleOf vs) :=
    List.Sublist.countP_le _ (List.take_sublist k _)
  have hz : TypeCounts.zero.text = 0 := rfl
  by_cases hne : vs.filter (fun v => v ≠ []) = []
  · simp only [determineColumnType]
    rw [if_pos hne]
  · simp only [determineColumnType]
    rw [if_neg hne]
    show scanSample (sampleSizeOf vs) (sampleOf vs) TypeCounts.zero = PGType.TEXT
    exact scanSample_text_exit _ _ _ (by omega) (by omega)

/-- C4: post-scan resolution: when the scan finishes without the early
TEXT exit (the TEXT tally stays within 10 percent of the sample size),
the result is BOOLEAN exactly on a unanimous boolean sample, otherwise the
first of REAL, INTEGER, DATE with a nonzero tally in that priority order,
and TEXT when all three are zero; an empty or all-empty input gives TEXT. -/
theorem determineColumnType_post_scan_priority (vs : List Str)
    (h : 10 * countType .TEXT (sampleOf vs) ≤ sampleSizeOf vs) :
    determineColumnType vs =
      if vs.filter (fun v => v ≠ []) = [] then .TEXT
      else if countType .BOOLEAN (sampleOf vs) = sampleSizeOf vs then .BOOLEAN
      else if countType .REAL (sampleOf vs) ≠ 0 then .REAL
      else if countType .INTEGER (sampleOf vs) ≠ 0 then .INTEGER
      else if countType .DATE (sampleOf vs) ≠ 0 then .DATE
      else .TEXT := by
  have hz : TypeCounts.zero = ⟨0, 0, 0, 0, 0⟩ := rfl
  by_cases hne : vs.filter (fun v => v ≠ []) = []
  · simp only [determineColumnType]
    rw [if_pos hne, if_pos hne]
  · have hn1 : 1 ≤ sampleSizeOf vs := by
      simp only [sampleSizeOf]
      have : (vs.filter (fun v => v ≠ [])).length ≠ 0 := by
        simpa [List.length_eq_zero] using hne
      omega
    simp only [determineColumnType]
    rw [if_neg hne, if_neg hne]
    show scanSample (sampleSizeOf vs) (sampleOf vs) TypeCounts.zero = _
    rw [scanSample_complete (sampleSizeOf vs) (sampleOf vs) TypeCounts.zero
      (by rw [hz]; simpa using h)]
    rw [hz]
    simp only [Nat.zero_add]
    by_cases hb : countType .BOOLEAN (sampleOf vs) = sampleSizeOf vs
    · rw [if_pos ⟨by omega, hb⟩, if_pos hb]
    · rw [if_neg (by tauto), if_neg hb]

/-- C5: the five-step classification order of `inferDataType`: empty is
TEXT; then a trimmed case-insensitive boolean-looking token (so also "1"
and "0") is BOOLEAN; then a value converting to a number and not blank is
REAL when it contains a decimal point and INTEGER otherwise; then a
4-2-2-digit dashed value is DATE; otherwise TEXT. -/
theorem inferDataType_five_step_order (v : Str) :
    (v = [] → inferDataType v = .TEXT)
    ∧ (v ≠ [] → boolTokens.contains (trimLower v) = true →
        inferDataType v = .BOOLEAN)
    ∧ (v ≠ [] → boolTokens.contains (trimLower v) = false →
        (jsStrToNumber v).isSome = true → jsTrim v ≠ [] →
        inferDataType v = if v.contains '.' then .REAL else .INTEGER)
    ∧ (v ≠ [] → boolTokens.contains (trimLower v) = false →
        ¬((jsStrToNumber v).isSome = true ∧ jsTrim v ≠ []) →
        isDatePattern v = true → inferDataType v = .DATE)
    ∧ (v ≠ [] → boolTokens.contains (trimLower v) = false →
        ¬((jsStrToNumber v).isSome = true ∧ jsTrim v ≠ []) →
        isDatePattern v = false → inferDataType v = .TEXT)
    ∧ inferDataType (str r"1") = .BOOLEAN
    ∧ inferDataType (str r"0") = .BOOLEAN := by
  refine ⟨?_, ?_, ?_, ?_, ?_, by decide, by decide⟩
  · intro h1; subst h1; decide
  · intro h1 h2
    simp only [inferDataType, if_neg h1]
    rw [if_pos h2]
  · intro h1 h2 h3 h4
    simp only [inferDataType, if_neg h1]
    rw [if_neg (by rw [h2]; exact Bool.false_ne_true), if_pos ⟨h3, h4⟩]
  · intro h1 h2 h3 h4
    simp only [inferDataType, if_neg h1]
    rw [if_neg (by rw [h2]; exact Bool.false_ne_true), if_neg h3, if_pos h4]
  · intro h1 h2 h3 h4
    simp only [inferDataType, if_neg h1]
    rw [if_neg (by rw [h2]; exact Bool.false_ne_true), if_neg h3, if_neg (by simp [h4])]

/-- A value bound to an insert placeholder: SQL NULL, a number, a boolean
or a string. -/
inductive SQLValue
  | null
  | num : JSNum → SQLValue
  | bool : Bool → SQLValue
  | str : Str → SQLValue
deriving DecidableEq, Repr

/-- Affirmative tokens of the boolean cell conversion
(database-utils.ts line 101). -/
def affirmativeTokens : List Str :=
  [str r"true", str r"yes", str r"1", str r"t", str r"y"]

/-- Model of the per-cell conversion of the insert loop (database-utils.ts
lines 91-104).  `colType` is `columnTypes[i]`; it is `none` when the cell
index exceeds the column count (the source reads an undefined array entry
there, every type comparison is false, and the string branch applies). -/
def convertCell (colType : Option PGType) (val : Str) : SQLValue :=
  if val = [] then .null
  else if colType = some .INTEGER ∨ colType = some .REAL then
    match jsStrToNumber val with
    | none => .null
    | some n => .num n
  else if colType = some .BOOLEAN then
    .bool (affirmativeTokens.contains (trimLower val))
  else .str val

/-- Conversion of one row, `row.map((val, i) => ...)`: each cell is
converted with the type of its own position. -/
def convertRow (columnTypes : List PGType) : List Str → ℕ → List SQLValue
  | [], _ => []
  | val :: rest, i => convertCell columnTypes[i]? val :: convertRow columnTypes rest (i + 1)

/-- The one database table an import call touches (the table named by the
sanitized table name): its column definitions and rows in insert order. -/
structure Table where
  schema : List (Str × PGType)
  rows : List (List SQLValue)
deriving DecidableEq, Repr

/-- Per-column entry of the returned metadata. -/
structure ColumnMetadata where
  originalName : Str
  sanitizedName : Str
  type : PGType
deriving DecidableEq, Repr

/-- The metadata returned by a successful import call. -/
structure TableMetadata where
  tableName : Str
  sanitizedTableName : Str
  columns : List ColumnMetadata
  rowCount : ℕ
deriving DecidableEq, Repr

/-- An error value thrown during the import.  `dbError` is an error raised
by the database engine, identified by its message.  `importError` is
modelled from the spec: a dedicated `ImportError` wrapper holding an
underlying cause; no such wrapper type exists anywhere in the repository,
and the constructor exists only so that statements can say whether a
propagated error is wrapped. -/
inductive JSError
  | dbError : Str → JSError
  | importError : JSError → JSError
deriving DecidableEq, Repr

/-- Test for whether an error is the spec's `ImportError` wrapper. -/
def JSError.isWrappedImport : JSError → Bool
  | .importError _ => true
  | _ => false

/-- Behavior of the caller-supplied database engine for one import call:
which statements fail, and with which message.  `insertErr k` is the
outcome of the k-th insert statement of the call (0-based, counted across
batches). -/
structure FaultModel where
  dropErr : Option Str
  createErr : Option Str
  insertErr : ℕ → Option Str

/-- Per-column type inference of `createTableFromCSV` (lines 49-54):
column i is typed from `rows.map((row) => row[i]?.toString() ?? "")`. -/
def computedColumnTypes (columns : List Str) (rows : List (List Str)) : List PGType :=
  (List.range columns.length).map
    (fun i => determineColumnType (rows.map (fun row => (row[i]?).getD [])))

/-- The insert loop between BEGIN and COMMIT (lines 83-108), `k` counting
insert statements across batches.  The slicing into batches of 500 groups
exactly the same sequential inserts and only drives a progress log, so it
is transparent to the state. -/
def insertLoop (fm : FaultModel) (columnTypes : List PGType) :
    List (List Str) → ℕ → Table → Except JSError Table
  | [], _, t => .ok t
  | row :: rest, k, t =>
      match fm.insertErr k with
      | some e => .error (.dbError e)
      | none =>
          insertLoop fm columnTypes rest (k + 1)
            { t with rows := t.rows ++ [convertRow columnTypes row 0] }

/-- The `columns.map((originalName, i) => ...)` of the returned metadata
(lines 121-125); both lookups are always in range. -/
def metadataColumns (sanitizedColumns : List Str) (columnTypes : List PGType) :
    List Str → ℕ → List ColumnMetadata
  | [], _ => []
  | orig :: rest, i =>
      { originalName := orig
        sanitizedName := sanitizedColumns.getD i []
        type := columnTypes.getD i .TEXT }
        :: metadataColumns sanitizedColumns columnTypes rest (i + 1)

/-- Model of `createTableFromCSV` (database-utils.ts lines 29-128) run
against the table named by the sanitized table name, whose pre-call state
is `db0` (`none` when absent).  `DROP TABLE IF EXISTS` removes the table;
a drop failure is caught and logged and leaves the state unchanged.
`CREATE TABLE IF NOT EXISTS` creates the new empty table when none
survived the drop and is a no-op otherwise; a create failure aborts the
call, rethrowing the engine's error.  The inserts then run between BEGIN
and COMMIT: a failing insert triggers ROLLBACK, which restores the state
snapshotted at BEGIN — but not the drop and create, which ran before the
transaction — and rethrows the engine's error.  Returns the call's result
(metadata, or the thrown error) paired with the final committed state of
the table. -/
def createTableFromCSV (fm : FaultModel) (db0 : Option Table) (tableName : Str)
    (columns : List Str) (rows : List (List Str)) :
    Except JSError TableMetadata × Option Table :=
  let sanitizedColumns := columns.map sanitizeSqlIdentifier
  let columnTypes := computedColumnTypes columns rows
  let afterDrop : Option Table := if fm.dropErr.isSome then db0 else none
  match fm.createErr with
  | some e => (.error (.dbError e), afterDrop)
  | none =>
      let afterCreate : Table :=
        match afterDrop with
        | none => { schema := sanitizedColumns.zip columnTypes, rows := [] }
        | some t => t
      match insertLoop fm columnTypes rows 0 afterCreate with
      | .error e => (.error e, some afterCreate)
      | .ok t =>
          (.ok { tableName := tableName
                 sanitizedTableName := sanitizeSqlIdentifier tableName
                 columns := metadataColumns sanitizedColumns columnTypes columns 0
                 rowCount := rows.length }, some t)

deriving instance DecidableEq for Except

/-- C8: asymmetric boolean coercion on insert: an empty cell of a BOOLEAN
column becomes SQL NULL; every non-empty cell becomes the boolean that is
true exactly when its trimmed, case-insensitive form is an affirmative
token, and false for every other value, including the negative tokens
"no" and "false" and arbitrary garbage. -/
theorem convert_boolean_cell_asymmetric (val : Str) :
    (val = [] → convertCell (some .BOOLEAN) val = .null)
    ∧ (val ≠ [] →
        convertCell (some .BOOLEAN) val =
          .bool (affirmativeTokens.contains (trimLower val)))
    ∧ convertCell (some .BOOLEAN) (str r"no") = .bool false
    ∧ convertCell (some .BOOLEAN) (str r"false") = .bool false
    ∧ convertCell (some .BOOLEAN) (str r"garbage") = .bool false
    ∧ convertCell (some .BOOLEAN) (str r" YES ") = .bool true := by
  refine ⟨?_, ?_, by decide, by decide, by decide, by decide⟩
  · intro h; simp [convertCell, h]
  · intro h
    simp only [convertCell, if_neg h]
    rw [if_neg (by decide)]
    simp

lemma jsTrim_eq_nil_of_all_ws (val : Str) (h : val.all isJsWhitespace = true) :
    jsTrim val = [] := by
  have h1 : val.dropWhile isJsWhitespace = [] := by
    rw [List.dropWhile_eq_nil_iff]
    intro x hx
    exact (List.all_eq_true.mp h) x hx
  simp [jsTrim, h1]

lemma ws_char_not_digit (c : Char) (h : isJsWhitespace c = true) :
    isDigitChar c = false := by
  simp only [isJsWhitespace, Bool.or_eq_true, Bool.and_eq_true, beq_iff_eq,
    decide_eq_true_eq] at h
  rw [Bool.eq_false_iff]
  intro hd
  simp only [isDigitChar, Bool.and_eq_true, decide_eq_true_eq] at hd
  omega

lemma isDatePattern_imp_any_digit (val : Str) (h : isDatePattern val = true) :
    val.any isDigitChar = true := by
  unfold isDatePattern at h
  split at h
  · simp only [Bool.and_eq_true] at h
    simp [List.any_cons, h.1.1.1.1.1.1.1.1.1]
  · exact absurd h (by simp)

/-- C10: a non-empty cell made only of whitespace in an INTEGER or REAL
column is inserted as the number 0 (JavaScript's `Number` of a blank
string), not as SQL NULL, even though type inference classifies the same
value as TEXT. -/
theorem whitespace_cell_inserts_zero (val : Str) (h1 : val ≠ [])
    (h2 : val.all isJsWhitespace = true) :
    convertCell (some .INTEGER) val = .num (.fin 0)
    ∧ convertCell (some .REAL) val = .num (.fin 0)
    ∧ inferDataType val = .TEXT := by
  have htrim : jsTrim val = [] := jsTrim_eq_nil_of_all_ws val h2
  have hnum : jsStrToNumber val = some (.fin 0) := by
    simp only [jsStrToNumber, htrim]
  have hdate : isDatePattern val = false := by
    by_cases hd : isDatePattern val = true
    · exfalso
      have hany := isDatePattern_imp_any_digit val hd
      simp only [List.any_eq_true] at hany
      obtain ⟨c, hc, hdig⟩ := hany
      have := ws_char_not_digit c ((List.all_eq_true.mp h2) c hc)
      rw [this] at hdig
      exact Bool.false_ne_true hdig
    · exact Bool.eq_false_iff.mpr hd
  refine ⟨?_, ?_, ?_⟩
  · simp only [convertCell, if_neg h1]
    rw [if_pos (Or.inl trivial), hnum]
  · simp only [convertCell, if_neg h1]
    rw [if_pos (Or.inr trivial), hnum]
  · have hbool : boolTokens.contains (trimLower val) = false := by
      simp only [trimLower, htrim]
      decide
    simp only [inferDataType, if_neg h1]
    rw [if_neg (by rw [hbool]; exact Bool.false_ne_true),
      if_neg (by intro hc; exact hc.2 htrim),
      if_neg (by rw [hdate]; exact Bool.false_ne_true)]

/-- C9: the rowCount of the metadata returned by a successful import call
equals the number of input rows, whatever the per-cell conversions did. -/
theorem import_rowCount_eq_rows_length (fm : FaultModel) (db0 : Option Table)
    (tableName : Str) (columns : List Str) (rows : List (List Str))
    (md : TableMetadata) (db1 : Option Table)
    (h : createTableFromCSV fm db0 tableName columns rows = (.ok md, db1)) :
    md.rowCount = rows.length := by
  simp only [createTableFromCSV] at h
  split at h
  · simp at h
  · split at h
    · simp at h
    · simp only [Prod.mk.injEq, Except.ok.injEq] at h
      rw [← h.1]

/-- A fault-free engine: no statement fails. -/
def noFaults : FaultModel :=
  { dropErr := none, createErr := none, insertErr := fun _ => none }

/-- An engine whose insert statements all fail with the message "boom". -/
def failAllInserts : FaultModel :=
  { dropErr := none, createErr := none, insertErr := fun _ => some (str r"boom") }

/-- A pre-call table holding one TEXT column "a" with one row "old". -/
def preTable : Table :=
  { schema := [(str r"a", PGType.TEXT)], rows := [[.str (str r"old")]] }

/-- C1 counterexample: an import of one row whose insertion fails, against
a pre-call table with one row, throws the insert error, yet leaves the
table neither in its pre-call contents nor absent: the pre-transaction
DROP and CREATE persist, so the claim's all-or-nothing property fails. -/
theorem import_failed_insert_differs_from_pre_state :
    (createTableFromCSV failAllInserts (some preTable) (str r"t")
        [str r"a"] [[str r"zz"]]).1 = .error (.dbError (str r"boom"))
    ∧ (createTableFromCSV failAllInserts (some preTable) (str r"t")
        [str r"a"] [[str r"zz"]]).2 ≠ some preTable
    ∧ (createTableFromCSV failAllInserts (some preTable) (str r"t")
        [str r"a"] [[str r"zz"]]).2 ≠ none := by decide

/-- C1 amended: when the drop and create succeed and some insertion then
fails, the rollback removes every row inserted by this call, but the
pre-call table is not restored: the call leaves exactly the freshly
created empty table with the new schema. -/
theorem import_failed_insert_leaves_new_empty_table (fm : FaultModel)
    (db0 : Option Table) (tableName : Str) (columns : List Str)
    (rows : List (List Str)) (e : JSError)
    (hdrop : fm.dropErr = none) (hcreate : fm.createErr = none)
    (hfail : (createTableFromCSV fm db0 tableName columns rows).1 = Except.error e) :
    (createTableFromCSV fm db0 tableName columns rows).2 =
      some { schema := (columns.map sanitizeSqlIdentifier).zip
               (computedColumnTypes columns rows)
             rows := [] } := by
  simp only [createTableFromCSV, hdrop, hcreate, Option.isSome_none,
    Bool.false_eq_true, reduceIte] at hfail ⊢
  cases hl : insertLoop fm (computedColumnTypes columns rows) rows 0
      { schema := (columns.map sanitizeSqlIdentifier).zip
          (computedColumnTypes columns rows)
        rows := [] } with
  | error e2 => rfl
  | ok t => rw [hl] at hfail; simp at hfail

/-- Witness for the amended C1 at a concrete failing run. -/
theorem import_failed_insert_leaves_new_empty_table_witness :
    (createTableFromCSV failAllInserts (some preTable) (str r"t")
        [str r"a"] [[str r"zz"]]).2 =
      some { schema := ([str r"a"].map sanitizeSqlIdentifier).zip
               (computedColumnTypes [str r"a"] [[str r"zz"]])
             rows := [] } :=
  import_failed_insert_leaves_new_empty_table failAllInserts (some preTable)
    (str r"t") [str r"a"] [[str r"zz"]] (.dbError (str r"boom")) rfl rfl (by decide)

lemma insertLoop_error_is_db (fm : FaultModel) (ct : List PGType) :
    ∀ (rows : List (List Str)) (k : ℕ) (t : Table) (e : JSError),
      insertLoop fm ct rows k t = .error e → e.isWrappedImport = false := by
  intro rows
  induction rows with
  | nil => intro k t e h; simp [insertLoop] at h
  | cons row rest ih =>
      intro k t e h
      simp only [insertLoop] at h
      cases hk : fm.insertErr k with
      | some m =>
          rw [hk] at h
          simp only [Except.error.injEq] at h
          rw [← h]
          rfl
      | none =>
          rw [hk] at h
          exact ih _ _ _ h

/-- C2 counterexample: a concrete import run in which an insertion fails
propagates the engine's raw error, which is not an `ImportError` wrapper. -/
theorem import_error_unwrapped_at_concrete_input :
    (createTableFromCSV failAllInserts none (str r"t") [str r"a"] [[str r"zz"]]).1
        = .error (.dbError (str r"boom"))
    ∧ JSError.isWrappedImport (.dbError (str r"boom")) = false := by decide

/-- C2 amended: every error propagated by an import call (a create or an
insert failure) is the raw underlying database error, never wrapped in an
`ImportError`; no such wrapper exists in the code. -/
theorem import_error_never_wrapped (fm : FaultModel) (db0 : Option Table)
    (tableName : Str) (columns : List Str) (rows : List (List Str)) (e : JSError)
    (h : (createTableFromCSV fm db0 tableName columns rows).1 = .error e) :
    e.isWrappedImport = false := by
  simp only [createTableFromCSV] at h
  split at h
  · simp only [Except.error.injEq] at h
    rw [← h]
    rfl
  · split at h
    · rename_i e2 heq
      simp only [Except.error.injEq] at h
      rw [← h]
      exact insertLoop_error_is_db _ _ _ _ _ _ heq
    · simp at h

/-- Witness for the amended C2 at a concrete failing run. -/
theorem import_error_never_wrapped_witness :
    JSError.isWrappedImport (.dbError (str r"boom")) = false :=
  import_error_never_wrapped failAllInserts none (str r"t") [str r"a"]
    [[str r"zz"]] (.dbError (str r"boom")) (by decide)

/-- Witness for C3: a 12-value sample whose first two values are TEXT
crosses the 10 percent bar, so the column is TEXT despite ten numerics. -/
theorem early_text_exit_witness :
    determineColumnType [str r"aa", str r"bb", str r"2", str r"3", str r"4",
      str r"5", str r"6", str r"7", str r"8", str r"9", str r"10", str r"11"]
      = PGType.TEXT :=
  determineColumnType_early_text_exit _ 2 (by decide)

/-- Witness for C4: a completed scan with a REAL and a BOOLEAN-classified
value resolves to REAL by the priority order. -/
theorem post_scan_priority_witness :
    determineColumnType [str r"1", str r"2.5"] = PGType.REAL := by
  have h := determineColumnType_post_scan_priority [str r"1", str r"2.5"] (by decide)
  rw [h]
  decide

/-- Witness for C5: "1.5" converts to a number and contains a decimal
point, so the third step classifies it REAL. -/
theorem five_step_order_witness :
    inferDataType (str r"1.5") = PGType.REAL := by
  have h := (inferDataType_five_step_order (str r"1.5")).2.2.1
    (by decide) (by decide) (by decide) (by decide)
  rw [h]
  decide

/-- Witness for C8: the non-affirmative token "nope" converts to false in
a BOOLEAN column. -/
theorem boolean_cell_witness :
    convertCell (some PGType.BOOLEAN) (str r"nope") = SQLValue.bool false := by
  have h := (convert_boolean_cell_asymmetric (str r"nope")).2.1 (by decide)
  rw [h]
  decide

/-- Witness for C9 at a concrete one-row import. -/
theorem import_rowCount_witness :
    ({ tableName := str r"t"
       sanitizedTableName := str r"t"
       columns := [{ originalName := str r"a"
                     sanitizedName := str r"a"
                     type := PGType.TEXT }]
       rowCount := 1 } : TableMetadata).rowCount = [[str r"zz"]].length :=
  import_rowCount_eq_rows_length noFaults none (str r"t") [str r"a"] [[str r"zz"]]
    _ (some { schema := [(str r"a", PGType.TEXT)]
              rows := [[SQLValue.str (str r"zz")]] }) (by decide)

/-- Witness for C10 at the one-space cell. -/
theorem whitespace_cell_witness :
    convertCell (some PGType.INTEGER) (str r" ") = SQLValue.num (JSNum.fin 0)
    ∧ convertCell (some PGType.REAL) (str r" ") = SQLValue.num (JSNum.fin 0)
    ∧ inferDataType (str r" ") = PGType.TEXT :=
  whitespace_cell_inserts_zero (str r" ") (by decide) (by decide)

end CSVImport
